import Mathlib

/-!
Shallow embedding of djongo/transaction.py.

The source file defines a class Atomic (a context manager / decorator) with
methods start, commit, clear, commit_with_retry, abort, enter and exit, and a
module-level function atomic. All claims concern a single connection on a
single thread, so the embedding models the one thread-local client of that
connection directly: the client is represented by a World record holding the
session-id allocator, the per-session transaction state, the value of the
attribute named "session" that the code attaches to the client via setattr
and removes via delattr, and a trace of backend (pymongo) calls.

Exceptions are modelled by returning the mutated world together with an
optional error: in Python, state mutated before a raise stays mutated, which
the pair (World, Option PyError) captures.
-/

/-- Outcome of one backend commit_transaction call, chosen by an oracle
indexed by the attempt number: success, the transient OperationFailure that
the retry loop catches, or any other exception kind. -/
inductive CommitResult
  | success
  | operationFailure
  | otherError
deriving DecidableEq, Repr

/-- Python exceptions that the embedded code can raise. -/
inductive PyError
  | attributeError
  | operationFailure
  | otherError
deriving DecidableEq, Repr

/-- Backend (pymongo) calls, recorded in order in the trace. The argument is
the id of the session the call acts on (for startSession, the id of the
session it returns). -/
inductive BackendCall
  | startSession (sid : Nat)
  | startTransaction (sid : Nat)
  | commitTransaction (sid : Nat)
  | abortTransaction (sid : Nat)
  | endSession (sid : Nat)
deriving DecidableEq, Repr

/-- State of the thread-local client of one connection. Sessions are named by
ids allocated from nextSid; inTx sid and ended sid give each session's
in_transaction and ended state; attr is the attribute named "session" that
Atomic.start attaches to the client with setattr and Atomic.clear removes
with delattr (none = attribute absent); calls is the backend-call trace. -/
structure World where
  nextSid : Nat
  inTx : Nat → Bool
  ended : Nat → Bool
  attr : Option Nat
  calls : List BackendCall

/-- The Atomic object: fields set by Atomic.__init__ in the source
(self.using, self.savepoint, self.durable, self.session = None,
self.client). The client field records whether self.client is set
(the model has one client, so only presence matters). -/
structure Atomic where
  usingName : Option String
  savepoint : Bool
  durable : Bool
  session : Option Nat
  client : Bool
deriving DecidableEq, Repr

/-- Django's DEFAULT_DB_ALIAS, the name of the default connection. -/
def DEFAULT_DB_ALIAS : String := "default"

/-- Atomic.start from the source:
self.client = self.get_client();
self.session = self.client.start_session();
setattr(self.client, "session", self.session);
self.session.start_transaction().
get_client returns self.client when set, else the connection's (one) client:
in the one-client model both give the same client, so start records only
that self.client is now set. Note the source reads neither self.durable nor
self.savepoint here, performs no nesting check, and unconditionally starts a
fresh session. -/
def Atomic.start (a : Atomic) (w : World) : Atomic × World :=
  let sid := w.nextSid
  let w1 : World := { w with
    nextSid := sid + 1,
    inTx := fun k => if k = sid then false else w.inTx k,
    ended := fun k => if k = sid then false else w.ended k,
    calls := w.calls ++ [.startSession sid] }
  let w2 : World := { w1 with attr := some sid }
  let w3 : World := { w2 with
    inTx := fun k => if k = sid then true else w2.inTx k,
    calls := w2.calls ++ [.startTransaction sid] }
  ({ a with session := some sid, client := true }, w3)

/-- Atomic.__enter__: self.start(); return self. -/
def Atomic.enter (a : Atomic) (w : World) : Atomic × World :=
  a.start w

/-- Atomic.clear from the source:
if self.client is not None: delattr(self.client, "session").
delattr on an absent attribute raises AttributeError. -/
def Atomic.clear (a : Atomic) (w : World) : World × Option PyError :=
  if a.client then
    match w.attr with
    | some _ => ({ w with attr := none }, none)
    | none => (w, some .attributeError)
  else (w, none)

/-- Possible results of the commit_with_retry loop: commit succeeded after n
commit_transaction attempts, or it raised the last OperationFailure after n
attempts, or a non-OperationFailure escaped on attempt n. -/
inductive RetryOutcome
  | committed (attempts : Nat)
  | raisedOpFailure (attempts : Nat)
  | raisedOther (attempts : Nat)
deriving DecidableEq, Repr

/-- The loop body of Atomic.commit_with_retry. In the source, count starts
at 0 and is incremented on each OperationFailure; the loop re-raises when
count > retry_count, else re-raises when time.time() - start_time >= timeout,
else retries at once. Here i is the 0-based attempt index (so count = i + 1
after attempt i, because every attempt that continues the loop was an
OperationFailure), gas = retry_count - i is the number of retries still
allowed (count > retry_count is exactly gas = 0), and elapsed i is the value
of time.time() - start_time observed at the check after attempt i. The check
order of the source is kept: the count check precedes the timeout check. -/
def commitWithRetryGo (commits : Nat → CommitResult) (elapsed : Nat → Nat)
    (timeout : Nat) : Nat → Nat → RetryOutcome
  | gas, i =>
    match commits i with
    | .success => .committed (i + 1)
    | .otherError => .raisedOther (i + 1)
    | .operationFailure =>
      match gas with
      | 0 => .raisedOpFailure (i + 1)
      | gas' + 1 =>
        if timeout ≤ elapsed i then .raisedOpFailure (i + 1)
        else commitWithRetryGo commits elapsed timeout gas' (i + 1)

/-- Atomic.commit_with_retry(session, retry_count, timeout): run the loop
from attempt 0 with retryCount retries in reserve. -/
def commitWithRetry (commits : Nat → CommitResult) (elapsed : Nat → Nat)
    (retryCount timeout : Nat) : RetryOutcome :=
  commitWithRetryGo commits elapsed timeout retryCount 0

/-- Default retry_count of commit_with_retry in the source. -/
def defaultRetryCount : Nat := 1000

/-- Default timeout (seconds) of commit_with_retry in the source. -/
def defaultTimeout : Nat := 30

/-- Atomic.commit from the source:
if self.session.in_transaction: self.commit_with_retry(self.session);
self.session.end_session();
self.clear().
self.commit_with_retry is called with its default retry_count and timeout.
There is no try/finally: when commit_with_retry raises, the raise propagates
before end_session and clear run. When self.session is None the attribute
access raises AttributeError. -/
def Atomic.commit (a : Atomic) (commits : Nat → CommitResult)
    (elapsed : Nat → Nat) (w : World) : World × Option PyError :=
  match a.session with
  | none => (w, some .attributeError)
  | some sid =>
    let step : World × Option PyError :=
      if w.inTx sid then
        match commitWithRetry commits elapsed defaultRetryCount defaultTimeout with
        | .committed n =>
          ({ w with
             calls := w.calls ++ List.replicate n (.commitTransaction sid),
             inTx := fun k => if k = sid then false else w.inTx k }, none)
        | .raisedOpFailure n =>
          ({ w with calls := w.calls ++ List.replicate n (.commitTransaction sid) },
           some .operationFailure)
        | .raisedOther n =>
          ({ w with calls := w.calls ++ List.replicate n (.commitTransaction sid) },
           some .otherError)
      else (w, none)
    match step with
    | (w1, some e) => (w1, some e)
    | (w1, none) =>
      let w2 : World := { w1 with
        ended := fun k => if k = sid then true else w1.ended k,
        calls := w1.calls ++ [.endSession sid] }
      a.clear w2

/-- Atomic.abort from the source:
if self.session.in_transaction: self.session.abort_transaction();
self.session.end_session();
self.clear(). -/
def Atomic.abort (a : Atomic) (w : World) : World × Option PyError :=
  match a.session with
  | none => (w, some .attributeError)
  | some sid =>
    let w1 : World :=
      if w.inTx sid then
        { w with
          calls := w.calls ++ [.abortTransaction sid],
          inTx := fun k => if k = sid then false else w.inTx k }
      else w
    let w2 : World := { w1 with
      ended := fun k => if k = sid then true else w1.ended k,
      calls := w1.calls ++ [.endSession sid] }
    a.clear w2

/-- Atomic.__exit__(exc_type, exc_value, traceback):
if exc_type is None: return self.commit() else: return self.abort().
excRaised models exc_type is not None. commit and abort return Python None,
a falsy value, so the Bool component (whether the exception is suppressed)
is false on both paths; the Option PyError component is an exception raised
by commit or abort itself. -/
def Atomic.exit (a : Atomic) (excRaised : Bool) (commits : Nat → CommitResult)
    (elapsed : Nat → Nat) (w : World) : World × Option PyError × Bool :=
  if excRaised then
    match a.abort w with
    | (w1, e) => (w1, e, false)
  else
    match a.commit commits elapsed w with
    | (w1, e) => (w1, e, false)

/-- Argument of the module-level atomic function: either a connection name
(possibly None) or, for the bare-decorator form, the callable being
decorated. A callable body is modelled as a World transformer (a body that
completes without raising). -/
inductive UsingArg
  | name : Option String → UsingArg
  | func : (World → World) → UsingArg

/-- Result of atomic: either an Atomic scope object, or the decorated
callable, represented as the wrapping configuration together with the
original function (Python builds Atomic(DEFAULT_DB_ALIAS, savepoint,
durable)(using); ContextDecorator.__call__ stores exactly these data and
replays them on each invocation). -/
inductive AtomicOrWrapped
  | scope : Atomic → AtomicOrWrapped
  | wrapped : Atomic → (World → World) → AtomicOrWrapped

/-- The atomic function from the source:
if callable(using): return Atomic(DEFAULT_DB_ALIAS, savepoint, durable)(using)
else: return Atomic(using, savepoint, durable). -/
def atomic (u : UsingArg) (savepoint durable : Bool) : AtomicOrWrapped :=
  match u with
  | .func f => .wrapped (Atomic.mk (some DEFAULT_DB_ALIAS) savepoint durable none false) f
  | .name n => .scope (Atomic.mk n savepoint durable none false)

/-- Bare decorator use with the defaults of atomic: savepoint=True,
durable=False. -/
def atomicBare (f : World → World) : AtomicOrWrapped :=
  atomic (.func f) true false

/-- One invocation of a callable wrapped by ContextDecorator.__call__:
with self: return func(...), i.e. enter the scope, run the body, exit the
scope on the no-exception path. -/
def invokeWrapped (cfg : Atomic) (f : World → World) (commits : Nat → CommitResult)
    (elapsed : Nat → Nat) (w : World) : World × Option PyError :=
  match cfg.enter w with
  | (a1, w1) =>
    let w2 := f w1
    match a1.exit false commits elapsed w2 with
    | (w3, e, _) => (w3, e)

/-- A fresh world: no sessions yet, no attribute on the client, empty trace. -/
def w0 : World :=
  { nextSid := 0, inTx := fun _ => false, ended := fun _ => false,
    attr := none, calls := [] }

/-- A non-durable scope on the default connection, as atomic("default")
builds it. -/
def outerScope : Atomic :=
  { usingName := some DEFAULT_DB_ALIAS, savepoint := true, durable := false,
    session := none, client := false }

/-- A second non-durable scope with the same configuration. -/
def innerScope : Atomic := outerScope

/-- A durable scope on the default connection, as
atomic("default", durable=True) builds it. -/
def innerDurable : Atomic := { outerScope with durable := true }

/-- Commit oracle: every commit_transaction call succeeds. -/
def succC : Nat → CommitResult := fun _ => .success

/-- Commit oracle: every commit_transaction call raises OperationFailure. -/
def failC : Nat → CommitResult := fun _ => .operationFailure

/-- Clock oracle: no time has elapsed at any check. -/
def zeroE : Nat → Nat := fun _ => 0

/-- Clock oracle: the default 30-second timeout has already elapsed at the
first check. -/
def hitE : Nat → Nat := fun _ => 30

/-- Claim C1 (code bug in the source): entering a durable scope while a
session is already attached to the client raises no usage error at all.
Atomic.start performs no durability check and no nesting check: after
entering outerScope, entering innerDurable (durable=True) proceeds, makes
the backend calls start_session and start_transaction, and creates a second
session (id 1) for the inner scope — contradicting the claim and the Atomic
class docstring, which promises a RuntimeError when a durable block is
nested. -/
theorem c1_durable_nested_enter_raises_nothing :
    ((innerDurable.start (outerScope.start w0).2).2).calls
      = [.startSession 0, .startTransaction 0, .startSession 1, .startTransaction 1]
  ∧ ((innerDurable.start (outerScope.start w0).2).1).session = some 1
  ∧ ((innerDurable.start (outerScope.start w0).2).2).attr = some 1 :=
  ⟨rfl, rfl, rfl⟩

/-- Claim C2 (code bug in the source): nested non-durable scopes do not share
a session. Atomic.start unconditionally calls start_session, so entering
innerScope while outerScope is open creates a second session: the trace
holds two startSession calls and the two scopes hold distinct session ids. -/
theorem c2_nested_enter_creates_second_session :
    ((outerScope.start w0).1).session = some 0
  ∧ ((innerScope.start (outerScope.start w0).2).1).session = some 1
  ∧ ((innerScope.start (outerScope.start w0).2).1).session ≠ ((outerScope.start w0).1).session
  ∧ (((innerScope.start (outerScope.start w0).2).2).calls.count (.startSession 0)
      + ((innerScope.start (outerScope.start w0).2).2).calls.count (.startSession 1)) = 2 :=
  ⟨rfl, rfl, by decide, by decide⟩

/-- Claim C3, counterexample: with a backend whose commit_transaction always
raises the transient OperationFailure and a clock already at the 30-second
timeout, Atomic.commit on a freshly started scope propagates the failure
and neither end_session nor the delattr detachment runs: the trace gains
only the one commitTransaction call, the attribute is still attached and
the session is not ended — refuting the claim that cleanup runs regardless
of commit failure. -/
theorem c3_counterexample_commit_failure_skips_cleanup :
    ((outerScope.start w0).1.commit failC hitE (outerScope.start w0).2).2
      = some .operationFailure
  ∧ ((outerScope.start w0).1.commit failC hitE (outerScope.start w0).2).1.calls
      = [.startSession 0, .startTransaction 0, .commitTransaction 0]
  ∧ ((outerScope.start w0).1.commit failC hitE (outerScope.start w0).2).1.attr = some 0
  ∧ ((outerScope.start w0).1.commit failC hitE (outerScope.start w0).2).1.ended 0 = false :=
  ⟨rfl, rfl, rfl, rfl⟩

/-- Helper: when every commit_transaction call raises OperationFailure, the
loop from attempt i with gas retries in reserve raises the OperationFailure
after some n attempts with n bounded by the remaining retries, and no later
than the first attempt at which the clock check trips. -/
theorem commitWithRetryGo_always_fails (commits : Nat → CommitResult)
    (elapsed : Nat → Nat) (timeout : Nat)
    (hf : ∀ k, commits k = .operationFailure) :
    ∀ gas i, ∃ n, commitWithRetryGo commits elapsed timeout gas i = .raisedOpFailure n
      ∧ n ≤ i + gas + 1 ∧ ∀ j, i ≤ j → timeout ≤ elapsed j → n ≤ j + 1 := by
  intro gas
  induction gas with
  | zero =>
    intro i
    refine ⟨i + 1, ?_, by omega, ?_⟩
    · simp [commitWithRetryGo, hf i]
    · intro j hij _
      omega
  | succ g ih =>
    intro i
    by_cases ht : timeout ≤ elapsed i
    · refine ⟨i + 1, ?_, by omega, ?_⟩
      · simp [commitWithRetryGo, hf i, ht]
      · intro j hij _
        omega
    · obtain ⟨n, heq, hb, hlate⟩ := ih (i + 1)
      refine ⟨n, ?_, by omega, ?_⟩
      · simp [commitWithRetryGo, hf i, ht, heq]
      · intro j hij htj
        rcases Nat.lt_or_ge i j with hlt | hge
        · exact hlate j hlt htj
        · have hji : j = i := by omega
          subst hji
          exact absurd htj ht

/-- Claim C4: when commit_transaction always fails with the transient
OperationFailure, commitWithRetry raises that failure after at most
retryCount + 1 commit attempts, and no later than the first attempt at
which the elapsed wall-clock value reaches the timeout; the source defaults
are retry_count = 1000 and timeout = 30 seconds (and the loop body contains
no delay between attempts). -/
theorem c4_retry_raises_within_bounds (commits : Nat → CommitResult)
    (elapsed : Nat → Nat) (retryCount timeout : Nat)
    (hf : ∀ k, commits k = .operationFailure) :
    (∃ n, commitWithRetry commits elapsed retryCount timeout = .raisedOpFailure n
      ∧ n ≤ retryCount + 1
      ∧ ∀ j, timeout ≤ elapsed j → n ≤ j + 1)
    ∧ defaultRetryCount = 1000 ∧ defaultTimeout = 30 := by
  obtain ⟨n, heq, hb, hlate⟩ :=
    commitWithRetryGo_always_fails commits elapsed timeout hf retryCount 0
  exact ⟨⟨n, heq, by omega, fun j htj => hlate j (Nat.zero_le j) htj⟩, rfl, rfl⟩

/-- Witness for c4_retry_raises_within_bounds at the always-failing oracle
failC with a clock that never advances and retryCount = 2: the loop raises
after at most 3 attempts. -/
theorem c4_retry_raises_within_bounds_witness :
    (∃ n, commitWithRetry failC zeroE 2 30 = .raisedOpFailure n
      ∧ n ≤ 3
      ∧ ∀ j, 30 ≤ zeroE j → n ≤ j + 1)
    ∧ defaultRetryCount = 1000 ∧ defaultTimeout = 30 :=
  c4_retry_raises_within_bounds failC zeroE 2 30 (fun _ => rfl)

/-- Claim C6: when the first commit_transaction call raises an error that is
not the transient OperationFailure, commitWithRetry propagates it at once:
exactly one attempt is made, for every retryCount and timeout. -/
theorem c6_nonretryable_propagates_first_attempt (commits : Nat → CommitResult)
    (elapsed : Nat → Nat) (retryCount timeout : Nat)
    (h : commits 0 = .otherError) :
    commitWithRetry commits elapsed retryCount timeout = .raisedOther 1 := by
  cases retryCount with
  | zero => simp [commitWithRetry, commitWithRetryGo, h]
  | succ g => simp [commitWithRetry, commitWithRetryGo, h]

/-- Witness for c6_nonretryable_propagates_first_attempt at a concrete
always-otherError oracle with the source defaults. -/
theorem c6_nonretryable_propagates_first_attempt_witness :
    commitWithRetry (fun _ => .otherError) zeroE 1000 30 = .raisedOther 1 :=
  c6_nonretryable_propagates_first_attempt (fun _ => .otherError) zeroE 1000 30 rfl

/-- Helper: when the first commit_transaction call succeeds, the retry loop
returns after exactly one attempt, for every retryCount and timeout. -/
theorem commitWithRetry_first_success (commits : Nat → CommitResult)
    (elapsed : Nat → Nat) (retryCount timeout : Nat)
    (h : commits 0 = .success) :
    commitWithRetry commits elapsed retryCount timeout = .committed 1 := by
  cases retryCount with
  | zero => simp [commitWithRetry, commitWithRetryGo, h]
  | succ g => simp [commitWithRetry, commitWithRetryGo, h]

/-- Claim C3, amended: on the normal-exit path of a freshly started scope,
when commit_with_retry succeeds the session is ended and the
current-session attribute detached (exactly once, by the appended trace);
but when commit_with_retry raises, the error propagates before cleanup, so
end_session does not run and the attribute stays attached. -/
theorem c3_amended_cleanup_only_without_commit_error (w : World) (a0 : Atomic)
    (commits : Nat → CommitResult) (elapsed : Nat → Nat) :
    (commits 0 = .success →
      ((a0.start w).1.commit commits elapsed (a0.start w).2).2 = none
      ∧ ((a0.start w).1.commit commits elapsed (a0.start w).2).1.attr = none
      ∧ ((a0.start w).1.commit commits elapsed (a0.start w).2).1.ended w.nextSid = true
      ∧ ((a0.start w).1.commit commits elapsed (a0.start w).2).1.calls
          = (a0.start w).2.calls
            ++ [.commitTransaction w.nextSid, .endSession w.nextSid])
  ∧ ((∀ i, commits i = .operationFailure) →
      ∃ n, ((a0.start w).1.commit commits elapsed (a0.start w).2).2
             = some .operationFailure
      ∧ ((a0.start w).1.commit commits elapsed (a0.start w).2).1.attr
          = some w.nextSid
      ∧ ((a0.start w).1.commit commits elapsed (a0.start w).2).1.ended w.nextSid
          = false
      ∧ ((a0.start w).1.commit commits elapsed (a0.start w).2).1.calls
          = (a0.start w).2.calls
            ++ List.replicate n (.commitTransaction w.nextSid)) := by
  constructor
  · intro h
    simp [Atomic.start, Atomic.commit, Atomic.clear,
      commitWithRetry_first_success commits elapsed defaultRetryCount defaultTimeout h]
  · intro hf
    obtain ⟨n, heq, -, -⟩ :=
      commitWithRetryGo_always_fails commits elapsed defaultTimeout hf defaultRetryCount 0
    refine ⟨n, ?_, ?_, ?_, ?_⟩ <;>
      simp [Atomic.start, Atomic.commit, Atomic.clear, commitWithRetry, heq]

/-- Witness for c3_amended_cleanup_only_without_commit_error: the success
half at the all-success oracle and the failure half at the all-failing
oracle with the clock at the timeout, both on a fresh world. -/
theorem c3_amended_cleanup_only_without_commit_error_witness :
    (((outerScope.start w0).1.commit succC zeroE (outerScope.start w0).2).2 = none
      ∧ ((outerScope.start w0).1.commit succC zeroE (outerScope.start w0).2).1.attr = none
      ∧ ((outerScope.start w0).1.commit succC zeroE (outerScope.start w0).2).1.ended w0.nextSid = true
      ∧ ((outerScope.start w0).1.commit succC zeroE (outerScope.start w0).2).1.calls
          = (outerScope.start w0).2.calls
            ++ [.commitTransaction w0.nextSid, .endSession w0.nextSid])
  ∧ (∃ n, ((outerScope.start w0).1.commit failC hitE (outerScope.start w0).2).2
             = some .operationFailure
      ∧ ((outerScope.start w0).1.commit failC hitE (outerScope.start w0).2).1.attr
          = some w0.nextSid
      ∧ ((outerScope.start w0).1.commit failC hitE (outerScope.start w0).2).1.ended w0.nextSid
          = false
      ∧ ((outerScope.start w0).1.commit failC hitE (outerScope.start w0).2).1.calls
          = (outerScope.start w0).2.calls
            ++ List.replicate n (.commitTransaction w0.nextSid)) :=
  ⟨(c3_amended_cleanup_only_without_commit_error w0 outerScope succC zeroE).1 rfl,
   (c3_amended_cleanup_only_without_commit_error w0 outerScope failC hitE).2 (fun _ => rfl)⟩

/-- Claim C5: when the guarded block raises, Atomic.__exit__ takes the abort
path on a freshly started scope: commit_transaction is never called (the
trace gains exactly abortTransaction then endSession), the session is ended,
the current-session attribute is detached, the exit itself raises nothing
and returns a falsy value, so the original error from the block propagates
to the caller. -/
theorem c5_error_exit_aborts_and_propagates (w : World) (a0 : Atomic)
    (commits : Nat → CommitResult) (elapsed : Nat → Nat) :
    ((a0.start w).1.exit true commits elapsed (a0.start w).2).2.1 = none
  ∧ ((a0.start w).1.exit true commits elapsed (a0.start w).2).2.2 = false
  ∧ ((a0.start w).1.exit true commits elapsed (a0.start w).2).1.calls
      = (a0.start w).2.calls
        ++ [.abortTransaction w.nextSid, .endSession w.nextSid]
  ∧ ((a0.start w).1.exit true commits elapsed (a0.start w).2).1.attr = none
  ∧ ((a0.start w).1.exit true commits elapsed (a0.start w).2).1.ended w.nextSid = true
  ∧ ((a0.start w).1.exit true commits elapsed (a0.start w).2).1.inTx w.nextSid = false := by
  refine ⟨?_, ?_, ?_, ?_, ?_, ?_⟩ <;>
    simp [Atomic.start, Atomic.exit, Atomic.abort, Atomic.clear]

/-- Claim C7: entering an inner scope while an outer scope is open overwrites
the client attribute with the inner session (a fresh id, distinct from the
outer one), and the inner exit — on the abort path or on the commit path
with an accepting backend — removes the attribute entirely, leaving the
still-active outer session unattached. -/
theorem c7_inner_exit_detaches_outer_session (w : World) (o0 i0 : Atomic)
    (commits : Nat → CommitResult) (elapsed : Nat → Nat) :
    ((o0.start w).2).attr = some w.nextSid
  ∧ ((o0.start w).1).session = some w.nextSid
  ∧ ((i0.start (o0.start w).2).2).attr = some (w.nextSid + 1)
  ∧ ((i0.start (o0.start w).2).1).session = some (w.nextSid + 1)
  ∧ ((i0.start (o0.start w).2).1).session ≠ ((o0.start w).1).session
  ∧ ((i0.start (o0.start w).2).1.exit true commits elapsed
      (i0.start (o0.start w).2).2).1.attr = none
  ∧ ((i0.start (o0.start w).2).1.exit false succC elapsed
      (i0.start (o0.start w).2).2).1.attr = none := by
  refine ⟨rfl, rfl, rfl, rfl, ?_, ?_, ?_⟩
  · simp [Atomic.start]
  · simp [Atomic.start, Atomic.exit, Atomic.abort, Atomic.clear]
  · simp [Atomic.start, Atomic.exit, Atomic.commit, Atomic.clear,
      commitWithRetry_first_success succC elapsed defaultRetryCount defaultTimeout rfl]

/-- Claim C8: the durable flag is inert. Atomic.__init__ stores it and no
operation reads it: for any configuration, world, backend oracle and block
outcome, start produces the same world and the same session/client fields,
and __exit__ (hence commit and abort) produces the same result, whether the
scope was built with durable d1 or durable d2. -/
theorem c8_durable_flag_has_no_effect (u : Option String) (sp : Bool)
    (d1 d2 : Bool) (s : Option Nat) (c : Bool) (w : World) (excRaised : Bool)
    (commits : Nat → CommitResult) (elapsed : Nat → Nat) :
    ((Atomic.mk u sp d1 s c).start w).2 = ((Atomic.mk u sp d2 s c).start w).2
  ∧ ((Atomic.mk u sp d1 s c).start w).1.session
      = ((Atomic.mk u sp d2 s c).start w).1.session
  ∧ ((Atomic.mk u sp d1 s c).start w).1.client
      = ((Atomic.mk u sp d2 s c).start w).1.client
  ∧ (Atomic.mk u sp d1 s c).exit excRaised commits elapsed w
      = (Atomic.mk u sp d2 s c).exit excRaised commits elapsed w :=
  ⟨rfl, rfl, rfl, rfl⟩

/-- Claim C10: the savepoint flag is inert. Atomic.__init__ stores it (and
the atomic entry point records it in the built scope) but neither start nor
__exit__ (hence neither commit nor abort) reads it: behavior is identical
for savepoint sp1 and savepoint sp2 across every world, backend oracle and
block outcome. -/
theorem c10_savepoint_flag_has_no_effect (u : Option String) (sp1 sp2 : Bool)
    (d : Bool) (s : Option Nat) (c : Bool) (w : World) (excRaised : Bool)
    (commits : Nat → CommitResult) (elapsed : Nat → Nat) :
    ((Atomic.mk u sp1 d s c).start w).2 = ((Atomic.mk u sp2 d s c).start w).2
  ∧ ((Atomic.mk u sp1 d s c).start w).1.session
      = ((Atomic.mk u sp2 d s c).start w).1.session
  ∧ ((Atomic.mk u sp1 d s c).start w).1.client
      = ((Atomic.mk u sp2 d s c).start w).1.client
  ∧ (atomic (.name u) sp1 d) = .scope (Atomic.mk u sp1 d none false)
  ∧ (Atomic.mk u sp1 d s c).exit excRaised commits elapsed w
      = (Atomic.mk u sp2 d s c).exit excRaised commits elapsed w :=
  ⟨rfl, rfl, rfl, rfl, rfl⟩

/-- The configuration that the bare-decorator branch of atomic builds:
Atomic(DEFAULT_DB_ALIAS, savepoint=True, durable=False), with session None
and client None. -/
def bareCfg : Atomic :=
  Atomic.mk (some DEFAULT_DB_ALIAS) true false none false

/-- Claim C9: atomic applied bare to a callable treats it as the decorated
function with the default configuration — default connection name
DEFAULT_DB_ALIAS = "default", savepoint true, durable false — and each
invocation of the wrapped callable runs inside a freshly entered and exited
scope: with an accepting backend and an effect-free body, one invocation
appends exactly one startSession / startTransaction / commitTransaction /
endSession block for a fresh session id and leaves the attribute detached,
and a second invocation appends a second block for the next fresh id. -/
theorem c9_bare_decorator_default_config (f : World → World)
    (elapsed : Nat → Nat) (w : World) :
    atomicBare f = .wrapped bareCfg f
  ∧ bareCfg.usingName = some DEFAULT_DB_ALIAS
  ∧ DEFAULT_DB_ALIAS = "default"
  ∧ bareCfg.savepoint = true
  ∧ bareCfg.durable = false
  ∧ (invokeWrapped bareCfg (fun x => x) succC elapsed w).2 = none
  ∧ (invokeWrapped bareCfg (fun x => x) succC elapsed w).1.attr = none
  ∧ (invokeWrapped bareCfg (fun x => x) succC elapsed w).1.calls
      = w.calls ++ [.startSession w.nextSid, .startTransaction w.nextSid,
                    .commitTransaction w.nextSid, .endSession w.nextSid]
  ∧ (invokeWrapped bareCfg (fun x => x) succC elapsed
      (invokeWrapped bareCfg (fun x => x) succC elapsed w).1).1.calls
      = w.calls ++ [.startSession w.nextSid, .startTransaction w.nextSid,
                    .commitTransaction w.nextSid, .endSession w.nextSid,
                    .startSession (w.nextSid + 1), .startTransaction (w.nextSid + 1),
                    .commitTransaction (w.nextSid + 1), .endSession (w.nextSid + 1)] := by
  refine ⟨rfl, rfl, rfl, rfl, rfl, ?_, ?_, ?_, ?_⟩ <;>
    simp [invokeWrapped, Atomic.enter, Atomic.start, Atomic.exit, Atomic.commit,
      Atomic.clear,
      commitWithRetry_first_success succC elapsed defaultRetryCount defaultTimeout rfl,
      bareCfg]
